import Mathlib

/-!
Shallow embedding of `src/packages/core/src/utils/logger.ts` (package
`JellyBrick/farm`), for checking the natural-language specification of the
leveled console logger against the code.

Conventions of the embedding:
* JavaScript `undefined` / missing object properties are modelled with
  `Option` (`none` = the property is absent / `undefined`).
* Console output is modelled as the list of events a call performs, in
  order: screen clears and `console[method](text)` writes.
* `process.exit(1)` is modelled as an `exitCode` component of the result
  (`some 1` = the process terminates with status 1 after the listed
  events; `none` = the call returns normally).
* Throwing is modelled with `Except`: `Except.error e` is a thrown value.
* The color transforms of `color.js`, and `pad` of `share.js`, are not
  among the provided sources; they are modelled from the spec below.
-/

/-- JavaScript `Error` values as used by the logger: a `name`, a `message`,
an optional `stack` string (`none` models `undefined`), and an optional
`cause`. -/
inductive JsError : Type where
  | mk (name : String) (message : String) (stack : Option String) (cause : Option JsError)

/-- Decidable equality for `JsError` (not derivable automatically because
of the nested `Option JsError` cause field). -/
def JsError.deq : (a b : JsError) → Decidable (a = b)
  | .mk n1 m1 s1 c1, .mk n2 m2 s2 c2 =>
    let dc : Decidable (c1 = c2) :=
      match c1, c2 with
      | none, none => isTrue rfl
      | some x, some y =>
        match JsError.deq x y with
        | isTrue h => isTrue (congrArg some h)
        | isFalse h => isFalse (fun hh => h (Option.some.inj hh))
      | none, some _ => isFalse (fun hh => Option.noConfusion hh)
      | some _, none => isFalse (fun hh => Option.noConfusion hh)
    match dc with
    | isTrue hc =>
      if hn : n1 = n2 then
        if hm : m1 = m2 then
          if hs : s1 = s2 then isTrue (by rw [hn, hm, hs, hc])
          else isFalse (by simp [hs])
        else isFalse (by simp [hm])
      else isFalse (by simp [hn])
    | isFalse hc => isFalse (by simp [hc])

instance : DecidableEq JsError := JsError.deq

def JsError.name : JsError → String
  | .mk n _ _ _ => n

def JsError.message : JsError → String
  | .mk _ m _ _ => m

def JsError.stack : JsError → Option String
  | .mk _ _ s _ => s

def JsError.cause : JsError → Option JsError
  | .mk _ _ _ c => c

/-- JavaScript `Error.prototype.toString`: `name` and `message` joined by
`": "`, dropping whichever of the two is empty. Used when a template
literal coerces an error to a string. -/
def JsError.toStr (e : JsError) : String :=
  if e.name = "" then e.message
  else if e.message = "" then e.name
  else e.name ++ ": " ++ e.message

/-- The mutation `error.message = m` (a fresh value in this pure model). -/
def JsError.withMessage : JsError → String → JsError
  | .mk n _ s c, m => .mk n m s c

/-- The mutation `error.cause = c` (a fresh value in this pure model). -/
def JsError.withCause : JsError → Option JsError → JsError
  | .mk n m s _, c => .mk n m s c

/-- The TypeScript union `string | Error`, the message type accepted by
`error` and `errorOnce`. -/
inductive StrOrError : Type where
  | str (s : String)
  | err (e : JsError)
deriving DecidableEq

/-- String coercion of `string | Error`, as performed by template literals
and string concatenation. -/
def StrOrError.coerce : StrOrError → String
  | .str s => s
  | .err e => e.toStr

/-- Modelled from the spec: the color transforms exported by `color.js`
(imported by `logger.ts` but not among the provided sources). The spec
says they are string decorations adding ANSI escape sequences on a
color-capable terminal and leaving plain text otherwise, so they are kept
abstract here as an arbitrary family of string-to-string functions. -/
structure Colors : Type where
  bold : String → String
  green : String → String
  yellow : String → String
  red : String → String
  magenta : String → String
  blue : String → String
  cyan : String → String
  dim : String → String
  brandColor : String → String
  debugColor : String → String

/-- The `LogLevelNames` union type (the `LogLevel` enum has the same five
values). -/
inductive LogLevelNames : Type where
  | trace
  | debug
  | info
  | warn
  | error
deriving DecidableEq

/-- The default `levelValues` record of the `Logger` constructor. -/
def defaultLevelValues : LogLevelNames → Nat
  | .trace => 0
  | .debug => 1
  | .info => 2
  | .warn => 3
  | .error => 4

/-- The `LOGGER_METHOD` record: `none` models a level name that is not a
key of the record (`trace` and `debug`). -/
def LOGGER_METHOD : LogLevelNames → Option String
  | .info => some "log"
  | .warn => some "warn"
  | .error => some "error"
  | _ => none

/-- `LoggerOptions`. The `prefix` property is called `prefixText` here
because `prefix` is a reserved word in Lean. The `customLogger` property
is omitted: `logger.ts` never reads it. -/
structure LoggerOptions : Type where
  prefixText : Option String := none
  allowClearScreen : Option Bool := none
  brandColor : Option (String → String) := none
  exit : Option Bool := none

/-- `ErrorOptions`: per-call options of `Logger.error`. -/
structure ErrorOptions : Type where
  exit : Option Bool := none
  e : Option JsError := none
  error : Option JsError := none
deriving DecidableEq

/-- The environment signals read by the `Logger` constructor:
`process.stdout.isTTY` and the truthiness of `process.env.CI`. -/
structure Env : Type where
  isTTY : Bool
  isCI : Bool

/-- One observable console action of the logger: a screen clear or a
`console[method](text)` write. -/
inductive ConsoleEvent : Type where
  | clear
  | write (method : String) (text : String)
deriving DecidableEq

/-- A constructed `Logger`: its (already brand-formatted) options, the
`canClearScreen` flag fixed at construction, and the `levelValues`
record. -/
structure Logger : Type where
  options : LoggerOptions
  canClearScreen : Bool
  levelValues : LogLevelNames → Nat

/-- The `colorMap` assigned in the `Logger` constructor. -/
def colorMap (c : Colors) : LogLevelNames → (String → String)
  | .trace => c.green
  | .debug => c.debugColor
  | .info => c.brandColor
  | .warn => c.yellow
  | .error => c.red

/-- The `Logger` constructor: defaults missing options to `{}`, computes
`canClearScreen = allowClearScreen && isTTY && !CI`, and calls
`brandPrefix()` which rewrites `options.prefix` to the bolded bracketed
banner built from the configured text (default `"Farm"`). -/
def Logger.new (c : Colors) (env : Env) (opts : Option LoggerOptions)
    (levelValues : LogLevelNames → Nat) : Logger :=
  let options := opts.getD {}
  let canClearScreen := options.allowClearScreen.getD false && env.isTTY && !env.isCI
  let formattedName := c.bold (options.prefixText.getD "Farm")
  let formattedPrefix := c.bold ("[ " ++ formattedName ++ " ]")
  { options := { options with prefixText := some formattedPrefix }
    canClearScreen := canClearScreen
    levelValues := levelValues }

/-- `Logger.logMessage`. The guard is the source's own condition
`this.levelValues[level] <= this.levelValues[level]`. The events are the
optional screen clear followed by the single `console[loggerMethod]`
write of the colored prefix and the (optionally colored) message. -/
def Logger.logMessage (c : Colors) (lg : Logger) (level : LogLevelNames)
    (message : StrOrError) (color : Option (String → String))
    (showBanner : Bool) : List ConsoleEvent :=
  let loggerMethod := (LOGGER_METHOD level).getD "log"
  if lg.levelValues level ≤ lg.levelValues level then
    let pre := if showBanner then lg.options.prefixText.getD "undefined" ++ " " else ""
    let prefixColor := colorMap c level
    let loggerMessage :=
      match color with
      | some f => f message.coerce
      | none => message.coerce
    (if lg.canClearScreen then [ConsoleEvent.clear] else [])
      ++ [ConsoleEvent.write loggerMethod (prefixColor pre ++ loggerMessage)]
  else []

def Logger.trace (c : Colors) (lg : Logger) (message : String) : List ConsoleEvent :=
  lg.logMessage c .trace (.str message) (some c.magenta) true

def Logger.debug (c : Colors) (lg : Logger) (message : String) : List ConsoleEvent :=
  lg.logMessage c .debug (.str message) (some c.blue) true

def Logger.info (c : Colors) (lg : Logger) (message : String) : List ConsoleEvent :=
  lg.logMessage c .info (.str message) none true

def Logger.warn (c : Colors) (lg : Logger) (message : String) : List ConsoleEvent :=
  lg.logMessage c .warn (.str message) (some c.yellow) true

/-- The outcome of a `Logger.error` call: the error value that was
reported, the console events, and the exit status (`some 1` models
`process.exit(1)`; the events happen before the exit). -/
structure ErrorResult : Type where
  reported : JsError
  events : List ConsoleEvent
  exitCode : Option Nat

/-- `Logger.error`. `effectiveOptions = {...this.options, ...errorOptions}`
(only its `exit` property is consulted), the cause is
`errorOptions?.e || errorOptions?.error`, a string message is wrapped in a
fresh `Error` whose engine stack is immediately replaced by `''`, a cause
appends `"\nCaused by: " + (cause.stack ?? cause)` to the message, the
result is logged at the error level in red, and a truthy effective `exit`
terminates the process with status 1. -/
def Logger.error (c : Colors) (lg : Logger) (message : StrOrError)
    (errorOptions : Option ErrorOptions) : ErrorResult :=
  let effectiveExit : Option Bool :=
    (errorOptions.bind fun o => o.exit) <|> lg.options.exit
  let causeError : Option JsError :=
    (errorOptions.bind fun o => o.e) <|> (errorOptions.bind fun o => o.error)
  let error0 : JsError :=
    match message with
    | .str s => .mk "Error" s (some "") none
    | .err e => e
  let error1 : JsError :=
    match causeError with
    | some ce => error0.withMessage (error0.message ++ "\nCaused by: " ++ (ce.stack.getD ce.toStr))
    | none => error0
  { reported := error1
    events := lg.logMessage c .error (.err error1) (some c.red) true
    exitCode := if effectiveExit.getD false then some 1 else none }

/-- The three module-level deduplication sets of `logger.ts`
(`warnOnceMessages`, `infoOnceMessages`, `errorOnceMessages`). Sets of
strings are modelled as lists queried by membership. -/
structure OnceState : Type where
  warnOnceMessages : List String
  infoOnceMessages : List String
  errorOnceMessages : List StrOrError
deriving DecidableEq

/-- The state of the dedup sets at process start: all three empty. -/
def initialOnceState : OnceState :=
  { warnOnceMessages := []
    infoOnceMessages := []
    errorOnceMessages := [] }

/-- `Logger.infoOnce`: if the message is new, record it and emit it via
`info`; otherwise do nothing. Returns the updated sets and the events. -/
def Logger.infoOnce (c : Colors) (lg : Logger) (st : OnceState)
    (message : String) : OnceState × List ConsoleEvent :=
  if message ∈ st.infoOnceMessages then (st, [])
  else ({ st with infoOnceMessages := message :: st.infoOnceMessages }, lg.info c message)

/-- `Logger.warnOnce`: if the message is new, record it and emit it via
`warn`; otherwise do nothing. -/
def Logger.warnOnce (c : Colors) (lg : Logger) (st : OnceState)
    (message : String) : OnceState × List ConsoleEvent :=
  if message ∈ st.warnOnceMessages then (st, [])
  else ({ st with warnOnceMessages := message :: st.warnOnceMessages }, lg.warn c message)

/-- `Logger.errorOnce`: if the message is new, record it and delegate to
`error` (with no per-call options). Returns the updated sets, the events,
and the exit status of the delegated `error` call. -/
def Logger.errorOnce (c : Colors) (lg : Logger) (st : OnceState)
    (message : StrOrError) : OnceState × List ConsoleEvent × Option Nat :=
  if message ∈ st.errorOnceMessages then (st, [], none)
  else
    let r := lg.error c message none
    ({ st with errorOnceMessages := message :: st.errorOnceMessages }, r.events, r.exitCode)

/-- `Logger.hasErrorLogged`: membership query on `errorOnceMessages`. -/
def Logger.hasErrorLogged (st : OnceState) (message : StrOrError) : Bool :=
  decide (message ∈ st.errorOnceMessages)

/-- `Logger.hasWarnLogged`: membership query on `warnOnceMessages`. -/
def Logger.hasWarnLogged (st : OnceState) (message : String) : Bool :=
  decide (message ∈ st.warnOnceMessages)

/-- Helper for `NoopLogger.error`:
`_message instanceof Error ? _message : new Error(_message)`. The
engine-generated stack of the fresh `Error` is environment-dependent and
never inspected, so it is abstracted as `none`. -/
def noopBase : StrOrError → JsError
  | .err e => e
  | .str s => .mk "Error" s none none

/-- The `TypeError` raised by reading `.exit` of `undefined`. The exact
engine message text is implementation-defined; only the name matters. -/
def undefinedReadTypeError : JsError :=
  .mk "TypeError" "Cannot read properties of undefined" none none

def NoopLogger.trace (_message : String) : List ConsoleEvent := []

def NoopLogger.debug (_message : String) : List ConsoleEvent := []

def NoopLogger.info (_message : String) : List ConsoleEvent := []

def NoopLogger.warn (_message : String) : List ConsoleEvent := []

/-- `NoopLogger.error`. The body starts with `if (_errorOptions.exit)`
with no optional chaining, so a call without an options argument throws a
`TypeError` before anything else; with options, a truthy `exit` throws
the (string-wrapped) message error, with `cause` assigned from
`_errorOptions.e || _errorOptions.error` when one is supplied, and
otherwise the call does nothing. -/
def NoopLogger.error (_message : StrOrError) (_errorOptions : Option ErrorOptions) :
    Except JsError Unit :=
  match _errorOptions with
  | none => Except.error undefinedReadTypeError
  | some opts =>
    if opts.exit.getD false then
      let e := noopBase _message
      let e :=
        match opts.e <|> opts.error with
        | some ce => e.withCause (some ce)
        | none => e
      Except.error e
    else
      Except.ok ()

def NoopLogger.infoOnce (_message : String) : List ConsoleEvent := []

def NoopLogger.warnOnce (_message : String) : List ConsoleEvent := []

def NoopLogger.errorOnce (_message : StrOrError) : List ConsoleEvent := []

def NoopLogger.hasErrorLogged (_message : StrOrError) : Bool := false

def NoopLogger.hasWarnLogged (_message : String) : Bool := false

/-- Splitting a character list at newline characters, the way
`"...".split(/\n/g)` splits a JavaScript string into lines (empty pieces
included). The result is always nonempty. -/
def splitNlChars : List Char → List (List Char)
  | [] => [[]]
  | ch :: rest =>
    match splitNlChars rest with
    | [] => []
    | h :: t => if ch = '\n' then [] :: h :: t else (ch :: h) :: t

/-- `s.split(/\n/g)`: the lines of `s`, with empty pieces included. -/
def jsLines (s : String) : List String :=
  (splitNlChars s.data).map fun cs => String.mk cs

/-- `lines.join('\n')`. -/
def jsUnlines (lines : List String) : String :=
  String.intercalate "\n" lines

/-- The test `/^\s*at/.test(line)`: optional leading whitespace followed
by the two characters `at`. `Char.isWhitespace` approximates the
JavaScript `\s` class (the lines being tested contain no newline, and the
exotic `\s` members do not occur in stack traces). -/
def isAtLine (line : String) : Bool :=
  decide (((line.data.dropWhile fun ch => ch.isWhitespace).take 2) = ['a', 't'])

/-- The lines kept by `cleanStack`: the input split at newlines, filtered
to the call-frame-looking lines. -/
def cleanStackLines (stack : String) : List String :=
  (jsLines stack).filter fun l => isAtLine l

/-- `cleanStack`: split at newlines, keep only lines matching `/^\s*at/`,
join with newlines. -/
def cleanStack (stack : String) : String :=
  jsUnlines (cleanStackLines stack)

/-- Modelled from the spec: `pad` from `share.js` (imported by
`logger.ts` but not among the provided sources). The spec describes the
frame and stack sections as "indented", so `pad` is modelled as prefixing
every line with an indent. -/
def pad (s : String) : String :=
  jsUnlines ((jsLines s).map fun l => "  " ++ l)

/-- The `loc` field of a caught failure object: a line/column position. -/
structure Loc : Type where
  line : Nat
  column : Nat
deriving DecidableEq

/-- A caught failure object as consumed by `buildErrorMessage`; every
field may be absent. -/
structure FailureObj : Type where
  plugin : Option String := none
  loc : Option Loc := none
  id : Option String := none
  frame : Option String := none
  stack : Option String := none
deriving DecidableEq

/-- JavaScript truthiness of an optional string property: absent and the
empty string are falsy. -/
def truthy : Option String → Bool
  | some s => decide (s ≠ "")
  | none => false

/-- The `loc` suffix of the `File:` line:
`err.loc ? ":line:column" : ''`. -/
def locSuffix : Option Loc → String
  | some l => ":" ++ toString l.line ++ ":" ++ toString l.column
  | none => ""

/-- `buildErrorMessage`: appends to `args` the `Plugin:` line, the
`File:` line (with the `loc` suffix), the padded frame, and the padded
cleaned stack, each only when the corresponding field is truthy (and the
stack only when additionally `includeStack` holds), then joins with
newlines. -/
def buildErrorMessage (c : Colors) (err : FailureObj) (args0 : List String)
    (includeStack : Bool) : String :=
  let args := if truthy err.plugin then args0 ++ ["  Plugin: " ++ c.magenta (err.plugin.getD "")] else args0
  let loc := locSuffix err.loc
  let args := if truthy err.id then args ++ ["  File: " ++ c.cyan (err.id.getD "") ++ loc] else args
  let args := if truthy err.frame then args ++ [c.yellow (pad (err.frame.getD ""))] else args
  let args := if includeStack && truthy err.stack then args ++ [pad (cleanStack (err.stack.getD ""))] else args
  String.intercalate "\n" args

/-- `ResolvedServerUrls` from `http.ts` (visible only through its use
here): the `local` field is called `localUrls` because `local` is a
reserved word in Lean. -/
structure ResolvedServerUrls : Type where
  localUrls : List String
  network : List String
deriving DecidableEq

/-- The TypeScript union `string | boolean` of the `optionsHost`
parameter; the whole parameter is `Option HostOption`, with `none`
modelling `undefined`. -/
inductive HostOption : Type where
  | str (s : String)
  | bool (b : Bool)
deriving DecidableEq

/-- The replacement `url.replace(/:(\d+)\//, ...)` at the character
level: the leftmost occurrence of a colon, one or more digits and a slash
has its digit run wrapped in `colors.bold`. -/
def replacePortChars (c : Colors) : List Char → List Char
  | [] => []
  | ch :: rest =>
    if ch = ':' then
      let digits := rest.takeWhile fun d => d.isDigit
      let after := rest.dropWhile fun d => d.isDigit
      if 0 < digits.length ∧ after.head? = some '/' then
        ':' :: (c.bold (String.mk digits)).data ++ after
      else ch :: replacePortChars c rest
    else ch :: replacePortChars c rest

/-- `colorUrl`: cyan URL with the port digits bolded. -/
def colorUrl (c : Colors) (url : String) : String :=
  c.cyan (String.mk (replacePortChars c url.data))

/-- The message built for a `Local` URL line. -/
def localUrlLine (c : Colors) (url : String) : String :=
  c.bold (c.green "➜") ++ " " ++ c.bold "Local" ++ ":   " ++ c.bold (colorUrl c url)

/-- The message built for a `Network` URL line. -/
def networkUrlLine (c : Colors) (url : String) : String :=
  c.bold (c.green "➜") ++ " " ++ c.bold "Network" ++ ": " ++ c.bold (colorUrl c url)

/-- The hint message suggesting `--host`. -/
def hostHintLine (c : Colors) : String :=
  c.dim ("  " ++ c.green "➜" ++ "  " ++ c.bold "Network" ++ ": use ")
    ++ c.bold "--host" ++ c.dim " to expose"

/-- `printServerUrls`: one `logger.info` call per local URL, one per
network URL, and, when the network list is empty and the host option is
`undefined`, one `logger.info` hint. The result is the concatenated
console trace of those calls on the given `Logger`. -/
def printServerUrls (c : Colors) (urls : ResolvedServerUrls)
    (optionsHost : Option HostOption) (lg : Logger) : List ConsoleEvent :=
  (urls.localUrls.flatMap fun url => lg.info c (localUrlLine c url))
    ++ (urls.network.flatMap fun url => lg.info c (networkUrlLine c url))
    ++ (if urls.network.length = 0 ∧ optionsHost = none then lg.info c (hostHintLine c) else [])

/-- Whether a console event is a `console[method]` write (as opposed to a
screen clear). -/
def isWrite : ConsoleEvent → Bool
  | .clear => false
  | .write _ _ => true

/-- The text a `Logger.info` call writes for message `m`: the
info-colored prefix banner followed by the plain message. -/
def infoText (c : Colors) (lg : Logger) (m : String) : String :=
  c.brandColor (lg.options.prefixText.getD "undefined" ++ " ") ++ m

/-- The message text a `string | Error` value carries before any cause is
appended: the string itself, or the error's `message` property. -/
def origMessage : StrOrError → String
  | .str s => s
  | .err e => e.message

/-- A concrete `Colors` instance (all transforms the identity — the
"plain text" terminal of the spec), used to evaluate the embedding at
concrete inputs. -/
def idColors : Colors :=
  { bold := id
    green := id
    yellow := id
    red := id
    magenta := id
    blue := id
    cyan := id
    dim := id
    brandColor := id
    debugColor := id }

/-- A concrete logger with empty options, used for evaluation. -/
def testLogger : Logger :=
  { options := {}
    canClearScreen := false
    levelValues := defaultLevelValues }

/-- A concrete logger constructed with `exit: true`, used for
evaluation. -/
def exitLogger : Logger :=
  { options := { exit := some true }
    canClearScreen := false
    levelValues := defaultLevelValues }

/-- A concrete cause error, used for evaluation. -/
def causeWitnessError : JsError :=
  .mk "Error" "low level failure" none none

/-- A failure object with every optional field absent. -/
def emptyFailure : FailureObj :=
  { plugin := none
    loc := none
    id := none
    frame := none
    stack := none }

/-- Unfolding `logMessage`: the always-true rank comparison makes the
events the optional clear plus exactly one console write. -/
theorem logMessage_eq (c : Colors) (lg : Logger) (level : LogLevelNames)
    (message : StrOrError) (color : Option (String → String)) (showBanner : Bool) :
    lg.logMessage c level message color showBanner =
      (if lg.canClearScreen then [ConsoleEvent.clear] else [])
        ++ [ConsoleEvent.write ((LOGGER_METHOD level).getD "log")
              (colorMap c level
                  (if showBanner then lg.options.prefixText.getD "undefined" ++ " " else "")
                ++ (match color with
                    | some f => f message.coerce
                    | none => message.coerce))] := by
  simp [Logger.logMessage]

/-- The console writes of a `logMessage` call: exactly one. -/
theorem logMessage_filter_isWrite (c : Colors) (lg : Logger) (level : LogLevelNames)
    (message : StrOrError) (color : Option (String → String)) (showBanner : Bool) :
    (lg.logMessage c level message color showBanner).filter isWrite =
      [ConsoleEvent.write ((LOGGER_METHOD level).getD "log")
          (colorMap c level
              (if showBanner then lg.options.prefixText.getD "undefined" ++ " " else "")
            ++ (match color with
                | some f => f message.coerce
                | none => message.coerce))] := by
  rw [logMessage_eq]
  cases h : lg.canClearScreen <;> simp [isWrite]

/-- Every `Logger.info` call performs exactly one console write, on the
`log` method, of the info banner followed by the message. -/
theorem info_filter_isWrite (c : Colors) (lg : Logger) (m : String) :
    (lg.info c m).filter isWrite = [ConsoleEvent.write "log" (infoText c lg m)] := by
  rw [Logger.info, logMessage_filter_isWrite]
  simp [LOGGER_METHOD, colorMap, infoText, StrOrError.coerce]

/-- Every `Logger.warn` call performs exactly one console write. -/
theorem warn_writes_one (c : Colors) (lg : Logger) (m : String) :
    ((lg.warn c m).filter isWrite).length = 1 := by
  rw [Logger.warn, logMessage_filter_isWrite]
  simp

/-- The events of a `Logger.error` call contain exactly one console
write. -/
theorem error_writes_one (c : Colors) (lg : Logger) (m : StrOrError)
    (eo : Option ErrorOptions) :
    (((lg.error c m eo).events).filter isWrite).length = 1 := by
  simp only [Logger.error, logMessage_filter_isWrite, List.length_cons, List.length_nil]

/-- C1: for every `Logger` (any configured options and any `levelValues`
threshold record) and every level, the filter condition of `logMessage`
compares the level's rank to itself, so it always holds, and every call
to `logMessage` and to `trace`/`debug`/`info`/`warn`/`error` performs
exactly one console write of its message. -/
theorem claim_C1 (c : Colors) (lg : Logger) (level : LogLevelNames)
    (m : String) (message : StrOrError) (color : Option (String → String)) (showBanner : Bool) :
    lg.levelValues level ≤ lg.levelValues level
      ∧ ((lg.logMessage c level message color showBanner).filter isWrite).length = 1
      ∧ ((lg.trace c m).filter isWrite).length = 1
      ∧ ((lg.debug c m).filter isWrite).length = 1
      ∧ ((lg.info c m).filter isWrite).length = 1
      ∧ ((lg.warn c m).filter isWrite).length = 1
      ∧ (((lg.error c (.str m) none).events).filter isWrite).length = 1 := by
  refine ⟨le_refl _, ?_, ?_, ?_, ?_, ?_, ?_⟩ <;>
    simp [Logger.trace, Logger.debug, Logger.info, Logger.warn,
      logMessage_filter_isWrite, error_writes_one]

/-- C2: `error` with a per-call `exit: true` on the standard `Logger`
emits its one write and terminates the process with status 1; on
`NoopLogger` the same call raises the message error instead, with its
`cause` set to the supplied cause (accepted through `e` or `error`), and
with no cause supplied the raised error is the message error unchanged. -/
theorem claim_C2 (c : Colors) (lg : Logger) (m m2 : StrOrError)
    (eo eo2 : ErrorOptions) (ce : JsError)
    (hx : eo.exit = some true)
    (hc : (eo.e <|> eo.error) = some ce)
    (hx2 : eo2.exit = some true) (he2 : eo2.e = none) (her2 : eo2.error = none) :
    (lg.error c m (some eo)).exitCode = some 1
      ∧ ((lg.error c m (some eo)).events.filter isWrite).length = 1
      ∧ NoopLogger.error m (some eo) = Except.error ((noopBase m).withCause (some ce))
      ∧ NoopLogger.error m2 (some eo2) = Except.error (noopBase m2) := by
  refine ⟨?_, error_writes_one c lg m (some eo), ?_, ?_⟩
  · simp [Logger.error, hx]
  · simp [NoopLogger.error, hx, hc]
  · simp [NoopLogger.error, hx2, he2, her2]

/-- Witness for C2 at concrete inputs. -/
theorem claim_C2_witness :
    (testLogger.error idColors (.str "boom") (some { exit := some true, e := some causeWitnessError })).exitCode = some 1
      ∧ ((testLogger.error idColors (.str "boom") (some { exit := some true, e := some causeWitnessError })).events.filter isWrite).length = 1
      ∧ NoopLogger.error (.str "boom") (some { exit := some true, e := some causeWitnessError })
          = Except.error ((noopBase (.str "boom")).withCause (some causeWitnessError))
      ∧ NoopLogger.error (.str "boom2") (some { exit := some true })
          = Except.error (noopBase (.str "boom2")) :=
  claim_C2 idColors testLogger (.str "boom") (.str "boom2")
    { exit := some true, e := some causeWitnessError } { exit := some true }
    causeWitnessError rfl rfl rfl rfl rfl

/-- C6: when a cause error is supplied through either accepted field
name, the reported error's message is the original message text followed
by `"\nCaused by: "` and the cause's stack (or its string form when the
stack is absent), so the rendered message starts with the original text
and contains the `Caused by:` marker. -/
theorem claim_C6 (c : Colors) (lg : Logger) (m : StrOrError) (eo : ErrorOptions) (ce : JsError)
    (hc : (eo.e <|> eo.error) = some ce) :
    (lg.error c m (some eo)).reported.message
        = origMessage m ++ "\nCaused by: " ++ ce.stack.getD ce.toStr
      ∧ (origMessage m).data <+: ((lg.error c m (some eo)).reported.message).data
      ∧ "\nCaused by: ".data <:+: ((lg.error c m (some eo)).reported.message).data := by
  have heq : (lg.error c m (some eo)).reported.message
      = origMessage m ++ "\nCaused by: " ++ ce.stack.getD ce.toStr := by
    cases m with
    | str s => simp [Logger.error, hc, origMessage, JsError.withMessage, JsError.message]
    | err e =>
      cases e
      simp [Logger.error, hc, JsError.withMessage, JsError.message, origMessage]
  refine ⟨heq, ?_, ?_⟩
  · rw [heq]
    simp only [String.data_append, List.append_assoc]
    exact List.prefix_append _ _
  · rw [heq]
    simp only [String.data_append]
    exact List.infix_append _ _ _

/-- Witness for C6 at concrete inputs (cause supplied through the
`error` field name). -/
theorem claim_C6_witness :
    (testLogger.error idColors (.str "boom") (some { error := some causeWitnessError })).reported.message
        = origMessage (.str "boom") ++ "\nCaused by: " ++ causeWitnessError.stack.getD causeWitnessError.toStr
      ∧ (origMessage (.str "boom")).data
          <+: ((testLogger.error idColors (.str "boom") (some { error := some causeWitnessError })).reported.message).data
      ∧ "\nCaused by: ".data
          <:+: ((testLogger.error idColors (.str "boom") (some { error := some causeWitnessError })).reported.message).data :=
  claim_C6 idColors testLogger (.str "boom") { error := some causeWitnessError } causeWitnessError rfl

/-- C7: a plain string message is wrapped as an `Error` whose message is
the string and whose stack is the empty string (so no call-stack frames
exist to render), and an already-constructed error value without a cause
option is reported as-is. -/
theorem claim_C7 (c : Colors) (lg : Logger) (s : String) (e : JsError) :
    (lg.error c (.str s) none).reported = JsError.mk "Error" s (some "") none
      ∧ (lg.error c (.str s) none).reported.message = s
      ∧ (lg.error c (.str s) none).reported.stack = some ""
      ∧ (lg.error c (.err e) none).reported = e :=
  ⟨rfl, rfl, rfl, rfl⟩

/-- C10: `Logger.error` merges per-call options over constructor options:
with constructor `exit: true`, a call with no options and a call whose
options lack `exit` both terminate with status 1, while a per-call
`exit: false` overrides the constructor default and the call returns
normally. -/
theorem claim_C10 (c : Colors) (lg : Logger) (m : StrOrError) (eo : ErrorOptions)
    (hctor : lg.options.exit = some true) (hnoexit : eo.exit = none) :
    (lg.error c m none).exitCode = some 1
      ∧ (lg.error c m (some eo)).exitCode = some 1
      ∧ (lg.error c m (some { exit := some false })).exitCode = none := by
  refine ⟨?_, ?_, ?_⟩ <;> simp [Logger.error, hctor, hnoexit]

/-- Witness for C10 at concrete inputs. -/
theorem claim_C10_witness :
    (exitLogger.error idColors (.str "fatal") none).exitCode = some 1
      ∧ (exitLogger.error idColors (.str "fatal") (some { e := some causeWitnessError })).exitCode = some 1
      ∧ (exitLogger.error idColors (.str "fatal") (some { exit := some false })).exitCode = none :=
  claim_C10 idColors exitLogger (.str "fatal") { e := some causeWitnessError } rfl rfl

/-- C3: `hasWarnLogged` is false on the initial (process-start) dedup
state; a first `warnOnce` on any state not containing the message emits
exactly one write and records the message; the immediately repeated call
does nothing; and on any state already containing the message `warnOnce`
does nothing at all. -/
theorem claim_C3 (c : Colors) (lg : Logger) (m : String) (st st2 : OnceState)
    (h : Logger.hasWarnLogged st m = false) (h2 : Logger.hasWarnLogged st2 m = true) :
    Logger.hasWarnLogged initialOnceState m = false
      ∧ (((lg.warnOnce c st m).2).filter isWrite).length = 1
      ∧ Logger.hasWarnLogged (lg.warnOnce c st m).1 m = true
      ∧ lg.warnOnce c (lg.warnOnce c st m).1 m = ((lg.warnOnce c st m).1, [])
      ∧ lg.warnOnce c st2 m = (st2, []) := by
  have hm : ¬ m ∈ st.warnOnceMessages := by simpa [Logger.hasWarnLogged] using h
  have hm2 : m ∈ st2.warnOnceMessages := by simpa [Logger.hasWarnLogged] using h2
  refine ⟨?_, ?_, ?_, ?_, ?_⟩
  · simp [Logger.hasWarnLogged, initialOnceState]
  · simp [Logger.warnOnce, hm, warn_writes_one]
  · simp [Logger.warnOnce, hm, Logger.hasWarnLogged]
  · simp [Logger.warnOnce, hm]
  · simp [Logger.warnOnce, hm2]

/-- Witness for C3 at concrete inputs. -/
theorem claim_C3_witness :
    Logger.hasWarnLogged initialOnceState "w" = false
      ∧ (((testLogger.warnOnce idColors initialOnceState "w").2).filter isWrite).length = 1
      ∧ Logger.hasWarnLogged (testLogger.warnOnce idColors initialOnceState "w").1 "w" = true
      ∧ testLogger.warnOnce idColors (testLogger.warnOnce idColors initialOnceState "w").1 "w"
          = ((testLogger.warnOnce idColors initialOnceState "w").1, [])
      ∧ testLogger.warnOnce idColors
            { warnOnceMessages := ["w"], infoOnceMessages := [], errorOnceMessages := [] } "w"
          = ({ warnOnceMessages := ["w"], infoOnceMessages := [], errorOnceMessages := [] }, []) :=
  claim_C3 idColors testLogger "w" initialOnceState
    { warnOnceMessages := ["w"], infoOnceMessages := [], errorOnceMessages := [] }
    (by decide) (by decide)

/-- C4: `infoOnce` and `errorOnce` have the same once-only behavior as
`warnOnce`, and the three dedup sets are independent: a message recorded
by any one of the three `-once` methods does not suppress the first call
of either of the other two with the identical message. -/
theorem claim_C4 (c : Colors) (lg : Logger) (m : String) (st : OnceState)
    (hw : ¬ m ∈ st.warnOnceMessages)
    (hi : ¬ m ∈ st.infoOnceMessages)
    (he : ¬ StrOrError.str m ∈ st.errorOnceMessages) :
    (((lg.infoOnce c st m).2).filter isWrite).length = 1
      ∧ lg.infoOnce c (lg.infoOnce c st m).1 m = ((lg.infoOnce c st m).1, [])
      ∧ (((lg.errorOnce c st (.str m)).2.1).filter isWrite).length = 1
      ∧ lg.errorOnce c (lg.errorOnce c st (.str m)).1 (.str m)
          = ((lg.errorOnce c st (.str m)).1, [], none)
      ∧ (((lg.errorOnce c (lg.warnOnce c st m).1 (.str m)).2.1).filter isWrite).length = 1
      ∧ (((lg.infoOnce c (lg.warnOnce c st m).1 m).2).filter isWrite).length = 1
      ∧ (((lg.warnOnce c (lg.infoOnce c st m).1 m).2).filter isWrite).length = 1
      ∧ (((lg.errorOnce c (lg.infoOnce c st m).1 (.str m)).2.1).filter isWrite).length = 1
      ∧ (((lg.warnOnce c (lg.errorOnce c st (.str m)).1 m).2).filter isWrite).length = 1
      ∧ (((lg.infoOnce c (lg.errorOnce c st (.str m)).1 m).2).filter isWrite).length = 1 := by
  refine ⟨?_, ?_, ?_, ?_, ?_, ?_, ?_, ?_, ?_, ?_⟩ <;>
    simp [Logger.infoOnce, Logger.warnOnce, Logger.errorOnce, hw, hi, he,
      info_filter_isWrite, warn_writes_one, error_writes_one]

/-- Witness for C4 at concrete inputs. -/
theorem claim_C4_witness :
    (((testLogger.infoOnce idColors initialOnceState "m").2).filter isWrite).length = 1
      ∧ testLogger.infoOnce idColors (testLogger.infoOnce idColors initialOnceState "m").1 "m"
          = ((testLogger.infoOnce idColors initialOnceState "m").1, [])
      ∧ (((testLogger.errorOnce idColors initialOnceState (.str "m")).2.1).filter isWrite).length = 1
      ∧ testLogger.errorOnce idColors (testLogger.errorOnce idColors initialOnceState (.str "m")).1 (.str "m")
          = ((testLogger.errorOnce idColors initialOnceState (.str "m")).1, [], none)
      ∧ (((testLogger.errorOnce idColors (testLogger.warnOnce idColors initialOnceState "m").1 (.str "m")).2.1).filter isWrite).length = 1
      ∧ (((testLogger.infoOnce idColors (testLogger.warnOnce idColors initialOnceState "m").1 "m").2).filter isWrite).length = 1
      ∧ (((testLogger.warnOnce idColors (testLogger.infoOnce idColors initialOnceState "m").1 "m").2).filter isWrite).length = 1
      ∧ (((testLogger.errorOnce idColors (testLogger.infoOnce idColors initialOnceState "m").1 (.str "m")).2.1).filter isWrite).length = 1
      ∧ (((testLogger.warnOnce idColors (testLogger.errorOnce idColors initialOnceState (.str "m")).1 "m").2).filter isWrite).length = 1
      ∧ (((testLogger.infoOnce idColors (testLogger.errorOnce idColors initialOnceState (.str "m")).1 "m").2).filter isWrite).length = 1 :=
  claim_C4 idColors testLogger "m" initialOnceState (by decide) (by decide) (by decide)

/-- C8: `buildErrorMessage` tolerates any combination of absent fields —
its report is the given lines plus the `Plugin:` line, the `File:` line
(whose `:line:column` suffix is appended only when `loc` is present), the
frame block and the stack block, each contributed only when the
corresponding field is present (and the stack only when `includeStack`);
with every field absent the report is empty; and the cleaned stack keeps
exactly the lines matching the `at ...` call-frame pattern, as the spec's
own example shows. -/
theorem claim_C8 (c : Colors) (err : FailureObj) (args0 : List String) (includeStack : Bool)
    (s line : String) (hl : line ∈ cleanStackLines s) :
    buildErrorMessage c err args0 includeStack
      = String.intercalate "\n" (args0
          ++ (if truthy err.plugin then ["  Plugin: " ++ c.magenta (err.plugin.getD "")] else [])
          ++ (if truthy err.id then ["  File: " ++ c.cyan (err.id.getD "") ++ locSuffix err.loc] else [])
          ++ (if truthy err.frame then [c.yellow (pad (err.frame.getD ""))] else [])
          ++ (if includeStack && truthy err.stack then [pad (cleanStack (err.stack.getD ""))] else []))
      ∧ buildErrorMessage c emptyFailure [] includeStack = ""
      ∧ isAtLine line = true
      ∧ cleanStackLines "Error: x\n    at foo (a.ts:3:5)\nother junk" = ["    at foo (a.ts:3:5)"]
      ∧ cleanStack "Error: x\n    at foo (a.ts:3:5)\nother junk" = "    at foo (a.ts:3:5)" := by
  refine ⟨?_, ?_, ?_, by decide, by decide⟩
  · by_cases h1 : truthy err.plugin <;> by_cases h2 : truthy err.id <;>
      by_cases h3 : truthy err.frame <;>
      by_cases h4 : (includeStack && truthy err.stack) = true <;>
      simp [buildErrorMessage, h1, h2, h3, h4, List.append_assoc]
  · simp [buildErrorMessage, emptyFailure, truthy, String.intercalate]
  · exact (List.mem_filter.mp (by simpa [cleanStackLines] using hl)).2

/-- Witness for C8 at the spec's own example failure object. -/
theorem claim_C8_witness :
    buildErrorMessage idColors
        { plugin := none
          loc := some { line := 3, column := 5 }
          id := some "src/a.ts"
          frame := none
          stack := some "Error: x\n    at foo (a.ts:3:5)\nother junk" } [] true
      = String.intercalate "\n" (([] : List String)
          ++ (if truthy (none : Option String) then ["  Plugin: " ++ idColors.magenta ((none : Option String).getD "")] else [])
          ++ (if truthy (some "src/a.ts") then ["  File: " ++ idColors.cyan ((some "src/a.ts").getD "") ++ locSuffix (some { line := 3, column := 5 })] else [])
          ++ (if truthy (none : Option String) then [idColors.yellow (pad ((none : Option String).getD ""))] else [])
          ++ (if true && truthy (some "Error: x\n    at foo (a.ts:3:5)\nother junk") then [pad (cleanStack ((some "Error: x\n    at foo (a.ts:3:5)\nother junk").getD ""))] else []))
      ∧ buildErrorMessage idColors emptyFailure [] true = ""
      ∧ isAtLine "    at foo (a.ts:3:5)" = true
      ∧ cleanStackLines "Error: x\n    at foo (a.ts:3:5)\nother junk" = ["    at foo (a.ts:3:5)"]
      ∧ cleanStack "Error: x\n    at foo (a.ts:3:5)\nother junk" = "    at foo (a.ts:3:5)" :=
  claim_C8 idColors
    { plugin := none
      loc := some { line := 3, column := 5 }
      id := some "src/a.ts"
      frame := none
      stack := some "Error: x\n    at foo (a.ts:3:5)\nother junk" } [] true
    "Error: x\n    at foo (a.ts:3:5)\nother junk" "    at foo (a.ts:3:5)" (by decide)

/-- Helper: the console writes of a run of `logger.info` calls over a
list of URLs are exactly one `log` write per URL, in order. -/
theorem flatMap_info_filter (c : Colors) (lg : Logger) (g : String → String) (l : List String) :
    ((l.flatMap fun u => lg.info c (g u)).filter isWrite)
      = l.map fun u => ConsoleEvent.write "log" (infoText c lg (g u)) := by
  induction l with
  | nil => simp
  | cons x xs ih => simp [List.flatMap_cons, List.filter_append, ih, info_filter_isWrite]

/-- C9: `printServerUrls` writes, all through `logger.info` (the `log`
console method), exactly one `Local` line per local URL and one `Network`
line per network URL, followed by exactly one `--host` hint line when the
network list is empty and the host option is `undefined` and by no hint
line otherwise; the write count is the sum of those contributions. -/
theorem claim_C9 (c : Colors) (lg : Logger) (urls : ResolvedServerUrls) (host : Option HostOption) :
    ((printServerUrls c urls host lg).filter isWrite)
      = ((urls.localUrls.map fun u => infoText c lg (localUrlLine c u))
          ++ (urls.network.map fun u => infoText c lg (networkUrlLine c u))
          ++ (if urls.network.length = 0 ∧ host = none then [infoText c lg (hostHintLine c)] else [])).map
          (ConsoleEvent.write "log")
      ∧ ((printServerUrls c urls host lg).filter isWrite).length
          = urls.localUrls.length + urls.network.length
            + (if urls.network.length = 0 ∧ host = none then 1 else 0) := by
  have key : ((printServerUrls c urls host lg).filter isWrite)
      = ((urls.localUrls.map fun u => infoText c lg (localUrlLine c u))
          ++ (urls.network.map fun u => infoText c lg (networkUrlLine c u))
          ++ (if urls.network.length = 0 ∧ host = none then [infoText c lg (hostHintLine c)] else [])).map
          (ConsoleEvent.write "log") := by
    simp only [printServerUrls, List.filter_append, flatMap_info_filter]
    by_cases h : urls.network = [] ∧ host = none <;>
      simp [h, info_filter_isWrite, List.map_append, List.map_map, Function.comp_def,
        List.length_eq_zero]
  refine ⟨key, ?_⟩
  rw [key]
  by_cases h : urls.network = [] ∧ host = none <;> simp [h, List.length_eq_zero]

/-- C5: evaluation at the failing input. Calling `NoopLogger.error` with
no options argument dereferences `.exit` of `undefined` and raises a
`TypeError`, contradicting the claim that such a call has no observable
effect and never raises; with an options object whose `exit` is not
true the call indeed does nothing, and every level method is a no-op. -/
theorem claim_C5 :
    NoopLogger.error (.str "boom") none = Except.error undefinedReadTypeError
      ∧ NoopLogger.error (.str "boom") (some {}) = Except.ok ()
      ∧ NoopLogger.error (.str "boom") (some { exit := some false }) = Except.ok ()
      ∧ NoopLogger.trace "boom" = []
      ∧ NoopLogger.debug "boom" = []
      ∧ NoopLogger.info "boom" = []
      ∧ NoopLogger.warn "boom" = [] :=
  ⟨rfl, rfl, rfl, rfl, rfl, rfl, rfl⟩
